import Mathlib

set_option maxRecDepth 40000

/-!
Verification of the AI CareFlow generation pipeline core.

The development shallowly embeds the pipeline's pure core:
`app/utils/helpers.py` (`safe_json_parse`, `sanitize_text_input`),
`app/prompts/fragments.py` and `app/prompts/careflow.py`
(`build_careflow_prompts`), and `app/core/pipeline.py`
(`run_careflow_pipeline`).

Text is modelled as `List Char` (Python `str`, a sequence of code points;
lone surrogates are the one thing `Char` cannot represent, noted where it
matters). Python dicts are modelled as association lists built by repeated
assignment, which preserves first-insertion order and last-written values.
The effectful collaborators (OpenAI chat client, vision OCR client) are
modelled as parameters: the generation client is a function from messages
to raw text, and the OCR step is an oracle `Except Unit (List Char)`
describing what `VisionModelClient().extract_text(uploaded_image.read())`
would do for the supplied image (`.error` = some exception was raised).
-/

/-! ## Character classes -/

/-- Whitespace stripped by Python `str.strip()` (the `str.isspace` set). -/
def pyIsSpace (c : Char) : Bool :=
  let n := c.toNat
  (9 ≤ n && n ≤ 13) || (28 ≤ n && n ≤ 32) || n = 0x85 || n = 0xa0 ||
    n = 0x1680 || (0x2000 ≤ n && n ≤ 0x200a) || n = 0x2028 || n = 0x2029 ||
    n = 0x202f || n = 0x205f || n = 0x3000

/-- Whitespace skipped by Python's strict JSON scanner (` `, tab, newline, carriage return). -/
def jsonWs (c : Char) : Bool :=
  c = ' ' || c = '\t' || c = '\n' || c = '\r'

/-- ASCII decimal digit. -/
def isDigit (c : Char) : Bool :=
  48 ≤ c.toNat && c.toNat ≤ 57

/-! ## Python `str.strip()` -/

/-- Remove trailing characters satisfying `pyIsSpace`. -/
def stripRight (l : List Char) : List Char :=
  (l.reverse.dropWhile pyIsSpace).reverse

/-- Python `str.strip()`: drop leading and trailing whitespace. -/
def pyStrip (l : List Char) : List Char :=
  stripRight (l.dropWhile pyIsSpace)

/-! ## `sanitize_text_input` (app/utils/helpers.py, lines 104-127)

The Python source first does `text.replace("\r\n", "\n").replace("\r", "\n")`.
The two sequential global replacements are equivalent to one left-to-right
pass: a `\r` immediately followed by `\n` collapses into a single `\n`, and
any remaining `\r` becomes `\n`; `normNewlines` is that pass. -/

/-- Newline normalisation of `sanitize_text_input`. -/
def normNewlines : List Char → List Char
  | [] => []
  | '\r' :: '\n' :: rest => '\n' :: normNewlines rest
  | '\r' :: rest => '\n' :: normNewlines rest
  | c :: rest => c :: normNewlines rest

/-- Characters kept by the sanitizer: newline, tab, or printable ASCII (32-126). -/
def keepChar (c : Char) : Bool :=
  c = '\n' || c = '\t' || (32 ≤ c.toNat && c.toNat ≤ 126)

/-- Shallow embedding of `sanitize_text_input(text, max_length)`. The
`None`/non-`str` branches of the source are ruled out by the `List Char`
type. -/
def sanitize_text_input (text : List Char) (max_length : Nat := 6000) : List Char :=
  let cleaned := normNewlines text
  let cleaned := cleaned.filter keepChar
  let cleaned := if max_length < cleaned.length then cleaned.take max_length else cleaned
  pyStrip cleaned

/-! ## JSON values

A parsed Python JSON value. Numbers keep their source lexeme (Python
distinguishes `int`/`float`; none of the verified properties compares
numbers across spellings, so the lexeme is the faithful common
representation). Objects are association lists in Python dict order. -/

inductive Json where
  | null : Json
  | bool : Bool → Json
  | num : List Char → Json
  | str : List Char → Json
  | arr : List Json → Json
  | obj : List (List Char × Json) → Json

/-- Whether a value is a JSON object (a Python `dict`). -/
def Json.isObj : Json → Bool
  | .obj _ => true
  | _ => false

/-- First-match association-list lookup (Python dicts never hold duplicate
keys, so first match is the match). -/
def assocLookup (m : List (List Char × Json)) (k : List Char) : Option Json :=
  match m with
  | [] => none
  | (k', v) :: rest => if k' = k then some v else assocLookup rest k

/-- Python dict assignment `d[k] = v`: overwrite the key's entry in place
(keeping its position) when present, append otherwise. A dict never holds
duplicate keys, so replacing the first occurrence is the assignment. -/
def dictAssign : List (List Char × Json) → List Char → Json →
    List (List Char × Json)
  | [], k, v => [(k, v)]
  | (k', v') :: rest, k, v =>
    if k' = k then (k', v) :: rest else (k', v') :: dictAssign rest k v

/-- Folding a pair list into a dict by repeated assignment. This is both
Python's `dict(pairs)` (used by the JSON object decoder) and `{**base, **upd}`
merging. -/
def pyDictUpdate (base : List (List Char × Json)) (upds : List (List Char × Json)) :
    List (List Char × Json) :=
  upds.foldl (fun acc kv => dictAssign acc kv.1 kv.2) base

/-! ## Strict JSON parsing (Python `json.loads`)

A recursive-descent reading of CPython's `json.decoder` with
`strict=True` and the default hooks: whitespace is `jsonWs`, strings are
double-quoted with the eight simple escapes plus `\uXXXX` (surrogate pairs
combined), raw control characters below 0x20 are rejected inside strings,
numbers follow the strict JSON grammar extended with the Python constants
`NaN`, `Infinity` and `-Infinity`, and objects are built by repeated dict
assignment (`dict(pairs)`), so a duplicated key keeps its first position
and its last value.

Two deliberate modelling notes. First, `\uXXXX` escapes denoting a lone
surrogate are rejected here (Python keeps a lone-surrogate code unit,
which `Char` cannot represent); no verified property depends on them.
Second, nesting depth is bounded by a fuel argument, decremented on every
recursive step and initialised generously from the input length; Python
has the analogous `RecursionError` bound. -/

/-- Value of one hex digit (`0-9`, `a-f`, `A-F`). -/
def hexDigit (c : Char) : Option Nat :=
  let n := c.toNat
  if 48 ≤ n && n < 58 then some (n - 48)
  else if 97 ≤ n && n < 103 then some (n - 87)
  else if 65 ≤ n && n < 71 then some (n - 55)
  else none

/-- Value of a four-hex-digit escape payload. -/
def hex4 (c1 c2 c3 c4 : Char) : Option Nat :=
  match hexDigit c1, hexDigit c2, hexDigit c3, hexDigit c4 with
  | some a, some b, some c, some d =>
    some (a * 0x1000 + b * 0x100 + c * 0x10 + d)
  | _, _, _, _ => none

/-- Parse the body of a JSON string after its opening quote; returns the
decoded content and the remaining input after the closing quote. -/
def parseStringBody : List Char → Option (List Char × List Char)
  | [] => none
  | '"' :: rest => some ([], rest)
  | '\\' :: 'u' :: h1 :: h2 :: h3 :: h4 :: r =>
    match hex4 h1 h2 h3 h4 with
    | none => none
    | some n =>
      if 0xd800 ≤ n && n ≤ 0xdbff then
        match r with
        | '\\' :: 'u' :: k1 :: k2 :: k3 :: k4 :: r2 =>
          match hex4 k1 k2 k3 k4 with
          | some m =>
            if 0xdc00 ≤ m && m ≤ 0xdfff then
              (parseStringBody r2).map fun p =>
                (Char.ofNat (65536 + 1024 * (n - 55296) + (m - 56320)) :: p.1, p.2)
            else none
          | none => none
        | _ => none
      else if 0xdc00 ≤ n && n ≤ 0xdfff then none
      else
        (parseStringBody r).map fun p => (Char.ofNat n :: p.1, p.2)
  | '\\' :: e :: r =>
    let esc : Option Char :=
      if e = '"' then some '"'
      else if e = '\\' then some '\\'
      else if e = '/' then some '/'
      else if e = 'b' then some (Char.ofNat 8)
      else if e = 'f' then some (Char.ofNat 12)
      else if e = 'n' then some '\n'
      else if e = 'r' then some '\r'
      else if e = 't' then some '\t'
      else none
    match esc with
    | none => none
    | some c => (parseStringBody r).map fun p => (c :: p.1, p.2)
  | c :: rest =>
    if c.toNat < 32 then none
    else (parseStringBody rest).map fun p => (c :: p.1, p.2)
termination_by l => l.length
decreasing_by all_goals simp_arith

/-- Fractional and exponent parts of a number lexeme, mirroring the greedy
regex `(\.\d+)?([eE][-+]?\d+)?`: a malformed tail is simply not consumed. -/
def numTail (rest : List Char) : List Char × List Char :=
  let fr : List Char × List Char :=
    match rest with
    | '.' :: r =>
      let ds := r.takeWhile isDigit
      if ds.isEmpty then ([], rest) else ('.' :: ds, r.drop ds.length)
    | _ => ([], rest)
  let r1 := fr.2
  let ex : List Char × List Char :=
    match r1 with
    | e :: r =>
      if e = 'e' || e = 'E' then
        let sr : List Char × List Char :=
          match r with
          | '+' :: rr => (['+'], rr)
          | '-' :: rr => (['-'], rr)
          | _ => ([], r)
        let ds := sr.2.takeWhile isDigit
        if ds.isEmpty then ([], r1) else (e :: (sr.1 ++ ds), sr.2.drop ds.length)
      else ([], r1)
    | [] => ([], r1)
  (fr.1 ++ ex.1, ex.2)

/-- Number lexeme per the scanner regex `(-?(?:0|[1-9]\d*))(\.\d+)?([eE][-+]?\d+)?`. -/
def parseNumber (l : List Char) : Option (List Char × List Char) :=
  let sgn : List Char × List Char :=
    match l with
    | '-' :: r => (['-'], r)
    | _ => ([], l)
  match sgn.2 with
  | c :: r =>
    if c = '0' then
      let t := numTail r
      some (sgn.1 ++ '0' :: t.1, t.2)
    else if isDigit c then
      let ds := r.takeWhile isDigit
      let t := numTail (r.drop ds.length)
      some (sgn.1 ++ c :: (ds ++ t.1), t.2)
    else none
  | [] => none

/-- Number or one of the constants reachable from a `-`/digit start
(`-Infinity` is tried after the number regex, as in the scanner). -/
def parseNumCase (l : List Char) : Option (Json × List Char) :=
  match parseNumber l with
  | some (lex, rest) => some (.num lex, rest)
  | none =>
    if l.take 9 = "-Infinity".data then some (.num "-Infinity".data, l.drop 9)
    else none

mutual

/-- Parse one JSON value, skipping leading whitespace. -/
def parseValue : Nat → List Char → Option (Json × List Char)
  | 0, _ => none
  | fuel + 1, l =>
    match l.dropWhile jsonWs with
    | [] => none
    | '{' :: r => parseObjBody fuel r
    | '[' :: r => parseArrBody fuel r
    | '"' :: r => (parseStringBody r).map fun p => (.str p.1, p.2)
    | 't' :: r => if r.take 3 = "rue".data then some (.bool true, r.drop 3) else none
    | 'f' :: r => if r.take 4 = "alse".data then some (.bool false, r.drop 4) else none
    | 'n' :: r => if r.take 3 = "ull".data then some (.null, r.drop 3) else none
    | 'N' :: r => if r.take 2 = "aN".data then some (.num "NaN".data, r.drop 2) else none
    | 'I' :: r =>
      if r.take 7 = "nfinity".data then some (.num "Infinity".data, r.drop 7) else none
    | l' => parseNumCase l'

/-- Parse an object after its `{`. -/
def parseObjBody : Nat → List Char → Option (Json × List Char)
  | 0, _ => none
  | fuel + 1, r =>
    match r.dropWhile jsonWs with
    | '}' :: rest => some (.obj [], rest)
    | '"' :: rest => parseObjItems fuel rest []
    | _ => none

/-- Parse object members; the input starts just after the opening quote of
the next key. Pairs are accumulated and turned into a dict at the end. -/
def parseObjItems : Nat → List Char → List (List Char × Json) →
    Option (Json × List Char)
  | 0, _, _ => none
  | fuel + 1, afterQuote, acc =>
    match parseStringBody afterQuote with
    | none => none
    | some (key, r1) =>
      match r1.dropWhile jsonWs with
      | ':' :: r2 =>
        match parseValue fuel r2 with
        | none => none
        | some (v, r3) =>
          match r3.dropWhile jsonWs with
          | ',' :: r4 =>
            match r4.dropWhile jsonWs with
            | '"' :: r5 => parseObjItems fuel r5 (acc ++ [(key, v)])
            | _ => none
          | '}' :: r4 => some (.obj (pyDictUpdate [] (acc ++ [(key, v)])), r4)
          | _ => none
      | _ => none

/-- Parse an array after its `[`. -/
def parseArrBody : Nat → List Char → Option (Json × List Char)
  | 0, _ => none
  | fuel + 1, r =>
    match r.dropWhile jsonWs with
    | ']' :: rest => some (.arr [], rest)
    | r' => parseArrItems fuel r' []

/-- Parse array elements (the next token starts a value). -/
def parseArrItems : Nat → List Char → List Json → Option (Json × List Char)
  | 0, _, _ => none
  | fuel + 1, l, acc =>
    match parseValue fuel l with
    | none => none
    | some (v, r1) =>
      match r1.dropWhile jsonWs with
      | ',' :: r2 => parseArrItems fuel r2 (acc ++ [v])
      | ']' :: r2 => some (.arr (acc ++ [v]), r2)
      | _ => none

end

/-- Shallow embedding of `json.loads(l)`: parse one value and require only
whitespace afterwards; `none` models `json.JSONDecodeError`. -/
def jsonLoads (l : List Char) : Option Json :=
  match parseValue (4 * l.length + 16) l with
  | some (v, rest) => if (rest.dropWhile jsonWs).isEmpty then some v else none
  | none => none

/-! ## Markdown-fence stripping and `safe_json_parse` (helpers.py, lines 11-34)

The source tests `re.match(r"^```(?:json)?\s*(.*)```$", cleaned,
re.DOTALL | re.IGNORECASE)` on the already-stripped text and keeps
`group(1).strip()`. On a stripped input (no trailing newline, so `$` is
end-of-string) the pattern matches exactly when the text starts with three
backticks and, after greedily consuming an optional case-insensitive
`json` tag, the remainder ends with three backticks; `group(1)` is that
remainder minus a leading whitespace run and the final three backticks,
and the trailing `.strip()` makes the leading `\s*` irrelevant. Greedy
consumption of the tag never needs backtracking: if the remainder after
dropping `json` fails to end in three backticks then the remainder with
`json` kept fails too (the two share their last three characters whenever
the dropped form has three, and `json` followed by at most two characters
cannot end in three backticks). -/

/-- Case-insensitive test for a leading `json` tag (the only tag the fence
pattern recognises). -/
def startsWithJsonCI (l : List Char) : Bool :=
  (l.take 4).map Char.toLower = "json".data

/-- Do the last three characters exist and equal backticks? -/
def endsTripleTick (l : List Char) : Bool :=
  match l.reverse with
  | '`' :: '`' :: '`' :: _ => true
  | _ => false

/-- Fence matching on the stripped text: `some interior` when the pattern
matches, where `interior` is already re-stripped. -/
def tryFence (cleaned : List Char) : Option (List Char) :=
  match cleaned with
  | '`' :: '`' :: '`' :: rest =>
    let r := if startsWithJsonCI rest then rest.drop 4 else rest
    if endsTripleTick r then some (pyStrip (r.take (r.length - 3))) else none
  | _ => none

/-- The `cleaned` text that `safe_json_parse` hands to `json.loads` (and
stores under `"raw"` on failure): stripped, with a matched fence removed
and the interior re-stripped. -/
def cleanContent (raw_content : List Char) : List Char :=
  match tryFence (pyStrip raw_content) with
  | some inner => inner
  | none => pyStrip raw_content

/-- Shallow embedding of `safe_json_parse(raw_content, fallback)` for
textual input (the non-`str` branch of the source is unreachable at type
`List Char`; the default `fallback=None` becomes the empty dict, i.e.
`[]`). On parse failure the result is `{"raw": cleaned, **fallback}`. -/
def safe_json_parse (raw_content : List Char)
    (fallback : List (List Char × Json)) : Json :=
  match jsonLoads (cleanContent raw_content) with
  | some v => v
  | none => .obj (pyDictUpdate [("raw".data, .str (cleanContent raw_content))] fallback)

/-! ## Prompts (app/prompts/fragments.py and app/prompts/careflow.py) -/

/-- Base system prompt (`get_system_prompt_base`). -/
def get_system_prompt_base : String :=
  "You are an AI assistant helping with clinical documentation and workflow. " ++
  "You MUST NOT provide diagnoses or treatment instructions. " ++
  "You only help summarize information, draft documentation in SOAP format, " ++
  "and suggest high-level, non-diagnostic workflow steps.\n\n" ++
  "Always assume the input text is synthetic or de-identified."

/-- JSON response-format directive (`get_json_response_instructions`). -/
def get_json_response_instructions : String :=
  "Please respond in STRICT JSON with the following keys:\n\n" ++
  "\x7b\n" ++
  "  \"summary\": \"2-4 bullet points summarizing the visit.\",\n" ++
  "  \"soap_note\": \x7b\n" ++
  "    \"subjective\": \"...\",\n" ++
  "    \"objective\": \"...\",\n" ++
  "    \"assessment\": \"... (high-level, non-diagnostic)\",\n" ++
  "    \"plan\": \"... (high-level, non-prescriptive)\"\n" ++
  "  \x7d,\n" ++
  "  \"workflow_suggestions\": [\n" ++
  "    \"One high-level follow-up or documentation step\",\n" ++
  "    \"Another high-level administrative or workflow step\"\n" ++
  "  ]\n" ++
  "\x7d\n\n" ++
  "Do NOT include any extra text or explanations outside the JSON."

/-- The fixed user-prompt text of `build_careflow_prompts` that precedes
the embedded scenario (careflow.py lines 28-85, concatenated exactly as in
the source). -/
def careflowUserIntro : String :=
  "You will receive free-text clinical information that may be messy,\n" ++
  "partially structured, or in bullet points. It may include fragments of\n" ++
  "notes, partial EMR text, or shorthand.\n\n" ++
  "Safety and scope rules:\n" ++
  "- Do NOT provide diagnoses.\n" ++
  "- Do NOT provide medical advice or treatment recommendations.\n" ++
  "- Focus only on documentation, organization of information, and workflow support.\n" ++
  "- When describing the patient, do NOT calculate or infer age from dates of birth.\n" ++
  "  Use neutral phrases such as \x27adult male\x27, \x27adult female\x27, \x27middle-aged male patient\x27,\n" ++
  "  or simply \x27adult patient\x27.\n" ++
  "  Only include a numeric age if the input explicitly gives it (e.g. \x2748-year-old male\x27).\n\n" ++
  "Your tasks are:\n" ++
  "1. Expanded Summary (5–7 bullet points)\n" ++
  "   - Capture all key information from the input.\n" ++
  "   - Do NOT invent or guess details that are not clearly stated.\n\n" ++
  "2. Detailed, non-diagnostic SOAP note\n" ++
  "   - Subjective: symptoms, history, context, and functional impact, in\n" ++
  "     clear prose.\n" ++
  "   - Objective: if explicit vitals or physical exam findings are present in\n" ++
  "     the source, rewrite them clearly. If such objective data is not\n" ++
  "     documented in the source text, clearly state that and then provide a\n" ++
  "     short, neutral placeholder exam for drafting and educational purposes\n" ++
  "     only. For example: \x27Objective findings are not documented in the source\n" ++
  "     note. The following is a neutral placeholder exam for drafting and\n" ++
  "     educational purposes only: Patient appears in no acute distress,\n" ++
  "     speaking in full sentences, breathing comfortably, with no obvious\n" ++
  "     focal deficits observed.\x27 Do NOT include diagnoses, treatments, or\n" ++
  "     specific disease labels in this placeholder.\n" ++
  "   - Assessment: high-level concerns only, using language such as " ++
  "\"Potential contributing factors may include...\" and " ++
  "\"Areas of concern for further evaluation include...\". " ++
  "Do NOT provide firm diagnoses.\n" ++
  "   - Plan: workflow and documentation actions only — what to document,\n" ++
  "     what to monitor, what to prepare for clinician review. " ++
  "No prescriptions, medication choices, or treatment instructions.\n\n" ++
  "3. Workflow Suggestions (3–5 items)\n" ++
  "   - Suggest concrete documentation and workflow tasks, such as\n" ++
  "     clarifying certain history details, organizing data for clinician\n" ++
  "     review, or preparing follow-up documentation.\n\n" ++
  "4. Missing Information\n" ++
  "   - The JSON response must always include a \x27missing_information\x27 array.\n" ++
  "   - List only items that are clearly missing based on common clinical\n" ++
  "     documentation sections, such as: \x27No vital signs documented.\x27,\n" ++
  "     \x27No allergies documented.\x27, \x27No physical exam findings documented.\x27,\n" ++
  "     \x27No family history documented.\x27, \x27No social history documented.\x27,\n" ++
  "     \x27No medication list documented.\x27, \x27No surgical history documented.\x27,\n" ++
  "     \x27No past medical history documented.\x27, \x27No review of systems\n" ++
  "     documented.\x27\n" ++
  "   - Even if you generate a neutral placeholder Objective section, still\n" ++
  "     mark the original objective data as missing (for example,\n" ++
  "     \x27No vital signs documented in original note.\x27 or\n" ++
  "     \x27No physical exam findings documented in original note.\x27). Do NOT\n" ++
  "     treat placeholder content as real documentation.\n" ++
  "   - Do NOT speculate or infer details that are not present. Only state\n" ++
  "     that such information is missing when it is not mentioned.\n\n" ++
  "If any information is missing or not clearly stated in the input,\n" ++
  "explicitly write \"Not specified\" in the relevant SOAP fields rather than guessing.\n\n" ++
  "Here is the free-text clinical information:\n\n"

/-- Shallow embedding of `build_careflow_prompts(scenario)`: the scenario
is spliced between triple-single-quote delimiters, followed by the JSON
directive and a final newline. -/
def build_careflow_prompts (scenario : List Char) : List Char × List Char :=
  (get_system_prompt_base.data,
   careflowUserIntro.data ++ "\x27\x27\x27".data ++ scenario ++ "\x27\x27\x27\n\n".data ++
     get_json_response_instructions.data ++ "\n".data)

/-! ## Pipeline (app/core/pipeline.py) -/

/-- One chat message, `{"role": ..., "content": ...}`. -/
structure Message where
  role : List Char
  content : List Char

/-- The Python exception surfaced by the pipeline's final dict build when
`parsed` is not a dict (`parsed.get` on a list/str/int/...). -/
inductive PyErr where
  | attributeError

/-- The message list assembled at pipeline.py lines 76-79. -/
def careflowMessages (scenario : List Char) : List Message :=
  [⟨"system".data, (build_careflow_prompts scenario).1⟩,
   ⟨"user".data, (build_careflow_prompts scenario).2⟩]

/-- The OCR-augmentation step (pipeline.py lines 59-72). The optional
image carries an oracle for what the try-block's effectful calls would
yield: `.ok t` is extracted text `t`, `.error ()` is any raised exception
(caught and swallowed by the bare `except Exception`). -/
def augmentScenario (scenario : List Char)
    (uploaded_image : Option (Except Unit (List Char))) : List Char :=
  match uploaded_image with
  | none => scenario
  | some (.error _) => scenario
  | some (.ok extracted_text) =>
    if (pyStrip extracted_text).isEmpty then
      scenario ++ "\n\n[Extracted text from image]:\n(No readable text detected.)".data
    else
      scenario ++ "\n\n[Extracted text from image]:\n".data ++ extracted_text

/-- Shallow embedding of `run_careflow_pipeline(scenario, model_client,
uploaded_image)`. The model client is its `generate` function; exceptions
it raises are outside this embedding (the source does not catch them
either). The final dict literal evaluates four `parsed.get(key, default)`
calls with the fallback's values as defaults; when `parsed` is not a dict,
the first `.get` raises `AttributeError`. -/
def run_careflow_pipeline (scenario : List Char)
    (generate : List Message → List Char)
    (uploaded_image : Option (Except Unit (List Char))) : Except PyErr Json :=
  let scenario := augmentScenario scenario uploaded_image
  let messages := careflowMessages scenario
  let raw_content := generate messages
  let fallback_summary : Json := .str raw_content
  let fallback_soap : Json := .obj
    [("subjective".data, .str []), ("objective".data, .str []),
     ("assessment".data, .str []), ("plan".data, .str [])]
  let fallback : List (List Char × Json) :=
    [("summary".data, fallback_summary), ("soap_note".data, fallback_soap),
     ("workflow_suggestions".data, .arr []), ("missing_information".data, .arr [])]
  let parsed := safe_json_parse raw_content fallback
  match parsed with
  | .obj kvs =>
    .ok (.obj
      [("summary".data, (assocLookup kvs "summary".data).getD fallback_summary),
       ("soap_note".data, (assocLookup kvs "soap_note".data).getD fallback_soap),
       ("workflow_suggestions".data,
         (assocLookup kvs "workflow_suggestions".data).getD (.arr [])),
       ("missing_information".data,
         (assocLookup kvs "missing_information".data).getD (.arr []))])
  | _ => .error .attributeError

/-! ## The output schema (spec section 6) and auxiliary statement material -/

/-- Whether a value is a JSON string. -/
def Json.isStr : Json → Bool
  | .str _ => true
  | _ => false

/-- Whether a value is a JSON array of strings. -/
def Json.isStrArr : Json → Bool
  | .arr xs => xs.all Json.isStr
  | _ => false

/-- Whether a value is the `soap_note` record of the output schema:
exactly the four string fields subjective/objective/assessment/plan. -/
def soapNoteOk (j : Json) : Bool :=
  match j with
  | .obj kvs =>
    kvs.length = 4 &&
    (assocLookup kvs "subjective".data).elim false Json.isStr &&
    (assocLookup kvs "objective".data).elim false Json.isStr &&
    (assocLookup kvs "assessment".data).elim false Json.isStr &&
    (assocLookup kvs "plan".data).elim false Json.isStr
  | _ => false

/-- The wire contract of spec section 6: a JSON object with exactly the
keys `summary` (string or array of strings), `soap_note`,
`workflow_suggestions` and `missing_information` (arrays of strings). -/
def conformsSchema (j : Json) : Bool :=
  match j with
  | .obj kvs =>
    kvs.length = 4 &&
    (assocLookup kvs "summary".data).elim false
      (fun v => v.isStr || v.isStrArr) &&
    (assocLookup kvs "soap_note".data).elim false soapNoteOk &&
    (assocLookup kvs "workflow_suggestions".data).elim false Json.isStrArr &&
    (assocLookup kvs "missing_information".data).elim false Json.isStrArr
  | _ => false

/-- Wrapping a text in a markdown code fence: opening triple backtick,
a language tag, a newline, the body, a newline, closing triple backtick. -/
def fencedBlock (tag : List Char) (body : List Char) : List Char :=
  ['`', '`', '`'] ++ tag ++ ['\n'] ++ body ++ ['\n', '`', '`', '`']

/-- The four keys of the record `run_careflow_pipeline` returns. -/
def pipelineResultKeys : List (List Char) :=
  ["summary".data, "soap_note".data, "workflow_suggestions".data,
   "missing_information".data]

/-! ## Basic facts about the parser head and fence stripping -/

/-- A backtick cannot begin any JSON value. -/
theorem parseValue_backtick (fuel : Nat) (r : List Char) :
    parseValue fuel ('`' :: r) = none := by
  cases fuel with
  | zero => rfl
  | succ n =>
    have hws : jsonWs '`' = false := by decide
    simp [parseValue, List.dropWhile, hws, parseNumCase, parseNumber, isDigit,
      List.take]

/-- `json.loads` fails on input beginning with a backtick. -/
theorem jsonLoads_backtick (r : List Char) : jsonLoads ('`' :: r) = none := by
  simp [jsonLoads, parseValue_backtick]

/-- If the stripped text parses as JSON then the fence pattern does not
match it (a fence starts with a backtick, which no JSON value can). -/
theorem tryFence_eq_none_of_loads (l : List Char) (v : Json)
    (h : jsonLoads l = some v) : tryFence l = none := by
  unfold tryFence
  split
  · rw [jsonLoads_backtick] at h
    exact absurd h (by simp)
  · rfl

/-- When the stripped text parses, `cleaned` is just the stripped text. -/
theorem cleanContent_of_loads (t : List Char) (v : Json)
    (h : jsonLoads (pyStrip t) = some v) : cleanContent t = pyStrip t := by
  unfold cleanContent
  rw [tryFence_eq_none_of_loads _ _ h]

/-- On parse success `safe_json_parse` returns the parsed value, for any
fallback. -/
theorem safe_json_parse_of_loads (t : List Char)
    (fb : List (List Char × Json)) (v : Json)
    (h : jsonLoads (pyStrip t) = some v) : safe_json_parse t fb = v := by
  unfold safe_json_parse
  rw [cleanContent_of_loads _ _ h, h]

/-! ## Association-list facts about Python dict building -/

/-- Assigning `k` makes a lookup of `k` find the assigned value. -/
theorem assocLookup_dictAssign_self (m : List (List Char × Json)) (k : List Char)
    (v : Json) : assocLookup (dictAssign m k v) k = some v := by
  induction m with
  | nil => simp [dictAssign, assocLookup]
  | cons hd tl ih =>
    obtain ⟨k0, v0⟩ := hd
    by_cases hk : k0 = k
    · simp [dictAssign, assocLookup, hk]
    · simp [dictAssign, assocLookup, hk, ih]

/-- Assigning `k` leaves lookups of other keys unchanged. -/
theorem assocLookup_dictAssign_ne (m : List (List Char × Json)) (k : List Char)
    (v : Json) (k' : List Char) (h : k' ≠ k) :
    assocLookup (dictAssign m k v) k' = assocLookup m k' := by
  induction m with
  | nil =>
    have hne : ¬(k = k') := fun hh => h hh.symm
    simp [dictAssign, assocLookup, hne]
  | cons hd tl ih =>
    obtain ⟨k0, v0⟩ := hd
    by_cases hk : k0 = k
    · have hne : ¬(k = k') := fun hh => h hh.symm
      simp [dictAssign, assocLookup, hk, hne]
    · by_cases hk' : k0 = k'
      · simp [dictAssign, assocLookup, hk, hk', h]
      · simp [dictAssign, assocLookup, hk, hk', ih]

/-- Updating with pairs whose keys all differ from `key` leaves its lookup
unchanged. -/
theorem pyDictUpdate_lookup_of_notin (upds : List (List Char × Json))
    (m : List (List Char × Json)) (key : List Char)
    (h : ∀ p ∈ upds, p.1 ≠ key) :
    assocLookup (pyDictUpdate m upds) key = assocLookup m key := by
  induction upds generalizing m with
  | nil => rfl
  | cons u rest ih =>
    have h1 : u.1 ≠ key := h u (List.mem_cons_self u rest)
    have h2 : ∀ p ∈ rest, p.1 ≠ key := fun p hp => h p (List.mem_cons_of_mem u hp)
    show assocLookup (pyDictUpdate (dictAssign m u.1 u.2) rest) key = _
    rw [ih (dictAssign m u.1 u.2) h2,
      assocLookup_dictAssign_ne m u.1 u.2 key (fun hh => h1 hh.symm)]

theorem assocLookup_eq_none_of_notin (m : List (List Char × Json))
    (k : List Char) (h : k ∉ m.map Prod.fst) : assocLookup m k = none := by
  induction m with
  | nil => rfl
  | cons hd tl ih =>
    obtain ⟨k0, v0⟩ := hd
    simp only [List.map_cons, List.mem_cons, not_or] at h
    have hne : ¬(k0 = k) := fun hh => h.1 hh.symm
    simp [assocLookup, hne, ih h.2]

theorem forall_ne_of_assocLookup_none (m : List (List Char × Json))
    (k : List Char) (h : assocLookup m k = none) : ∀ p ∈ m, p.1 ≠ k := by
  induction m with
  | nil => intro p hp; simp at hp
  | cons hd tl ih =>
    intro p hp
    obtain ⟨k0, v0⟩ := hd
    by_cases hk : k0 = k
    · simp [assocLookup, hk] at h
    · rcases List.mem_cons.mp hp with h1 | h1
      · rw [h1]; exact hk
      · exact ih (by simpa [assocLookup, hk] using h) p h1

/-- Lookup after a dict update with duplicate-free update keys: the update
wins where it has the key, the base answers otherwise. -/
theorem pyDictUpdate_lookup (upds : List (List Char × Json))
    (m : List (List Char × Json)) (key : List Char)
    (h : (upds.map Prod.fst).Nodup) :
    assocLookup (pyDictUpdate m upds) key =
      match assocLookup upds key with
      | some v => some v
      | none => assocLookup m key := by
  induction upds generalizing m with
  | nil => rfl
  | cons u rest ih =>
    obtain ⟨k0, v0⟩ := u
    simp only [List.map_cons, List.nodup_cons] at h
    show assocLookup (pyDictUpdate (dictAssign m k0 v0) rest) key = _
    rw [ih (dictAssign m k0 v0) h.2]
    by_cases hk : key = k0
    · subst hk
      rw [assocLookup_eq_none_of_notin rest key h.1]
      rw [assocLookup_dictAssign_self]
      simp [assocLookup]
    · rw [assocLookup_dictAssign_ne m k0 v0 key hk]
      have hcons : assocLookup ((k0, v0) :: rest) key = assocLookup rest key := by
        have hne : ¬(k0 = key) := fun hh => hk hh.symm
        simp [assocLookup, hne]
      rw [hcons]

/-! ## Facts about stripping and newline normalisation -/

theorem dropWhile_cons_neg (p : Char → Bool) (a : Char) (l : List Char)
    (h : p a = false) : List.dropWhile p (a :: l) = a :: l := by
  simp [List.dropWhile, h]

theorem stripRight_append_neg (l : List Char) (b : Char)
    (h : pyIsSpace b = false) : stripRight (l ++ [b]) = l ++ [b] := by
  simp [stripRight, List.dropWhile, h]

theorem stripRight_append_pos (l : List Char) (b : Char)
    (h : pyIsSpace b = true) : stripRight (l ++ [b]) = stripRight l := by
  simp [stripRight, List.dropWhile, h]

theorem pyStrip_cons_pos (a : Char) (l : List Char) (h : pyIsSpace a = true) :
    pyStrip (a :: l) = pyStrip l := by
  simp [pyStrip, List.dropWhile, h]

theorem pyStrip_cons_neg (a : Char) (l : List Char) (h : pyIsSpace a = false) :
    pyStrip (a :: l) = stripRight (a :: l) := by
  simp [pyStrip, List.dropWhile, h]

theorem pyStrip_append_pos (l : List Char) (b : Char) (h : pyIsSpace b = true) :
    pyStrip (l ++ [b]) = pyStrip l := by
  unfold pyStrip
  rw [List.dropWhile_append]
  by_cases he : (l.dropWhile pyIsSpace).isEmpty
  · rw [if_pos he]
    have hb : List.dropWhile pyIsSpace [b] = [] := by simp [List.dropWhile, h]
    have he' : l.dropWhile pyIsSpace = [] := by simpa using he
    rw [hb, he']
  · rw [if_neg he, stripRight_append_pos _ _ h]

theorem dropWhile_head_false (p : Char → Bool) (l : List Char) (a : Char)
    (t : List Char) (h : List.dropWhile p l = a :: t) : p a = false := by
  induction l with
  | nil => simp [List.dropWhile] at h
  | cons c r ih =>
    by_cases hc : p c
    · rw [List.dropWhile_cons, if_pos hc] at h
      exact ih h
    · rw [List.dropWhile_cons, if_neg hc] at h
      rw [List.cons.injEq] at h
      rw [← h.1]
      simpa using hc

theorem dropWhile_dropWhile (p : Char → Bool) (l : List Char) :
    List.dropWhile p (List.dropWhile p l) = List.dropWhile p l := by
  cases hd : List.dropWhile p l with
  | nil => simp
  | cons a t => exact dropWhile_cons_neg p a t (dropWhile_head_false p l a t hd)

theorem stripRight_pyStrip (l : List Char) : stripRight (pyStrip l) = pyStrip l := by
  have hrev : (pyStrip l).reverse =
      List.dropWhile pyIsSpace (l.dropWhile pyIsSpace).reverse := by
    simp [pyStrip, stripRight]
  unfold stripRight
  rw [hrev, dropWhile_dropWhile]
  simp [pyStrip, stripRight]

/-- The trimmed text is a prefix of the left-trimmed text. -/
theorem pyStrip_prefix (l : List Char) : pyStrip l <+: l.dropWhile pyIsSpace := by
  have h1 : (l.dropWhile pyIsSpace).reverse.dropWhile pyIsSpace <:+
      (l.dropWhile pyIsSpace).reverse := List.dropWhile_suffix pyIsSpace
  have h2 := List.reverse_prefix.mpr h1
  rw [List.reverse_reverse] at h2
  exact h2

theorem dropWhile_pyStrip (l : List Char) :
    List.dropWhile pyIsSpace (pyStrip l) = pyStrip l := by
  cases hd : pyStrip l with
  | nil => simp
  | cons a t =>
    obtain ⟨s, hs⟩ := pyStrip_prefix l
    rw [hd] at hs
    have hhead : List.dropWhile pyIsSpace l = a :: (t ++ s) := by
      rw [← hs]; rfl
    exact dropWhile_cons_neg _ a t (dropWhile_head_false _ l a (t ++ s) hhead)

/-- Python `strip` is idempotent. -/
theorem pyStrip_pyStrip (l : List Char) : pyStrip (pyStrip l) = pyStrip l := by
  show stripRight ((pyStrip l).dropWhile pyIsSpace) = pyStrip l
  rw [dropWhile_pyStrip, stripRight_pyStrip]

theorem mem_of_mem_pyStrip (l : List Char) (c : Char) (h : c ∈ pyStrip l) :
    c ∈ l := by
  unfold pyStrip stripRight at h
  rw [List.mem_reverse] at h
  have h2 := (List.dropWhile_sublist _).subset h
  rw [List.mem_reverse] at h2
  exact (List.dropWhile_sublist _).subset h2

theorem pyStrip_length_le (l : List Char) : (pyStrip l).length ≤ l.length := by
  unfold pyStrip stripRight
  calc ((l.dropWhile pyIsSpace).reverse.dropWhile pyIsSpace).reverse.length
      = ((l.dropWhile pyIsSpace).reverse.dropWhile pyIsSpace).length := by
        rw [List.length_reverse]
    _ ≤ (l.dropWhile pyIsSpace).reverse.length := (List.dropWhile_sublist _).length_le
    _ = (l.dropWhile pyIsSpace).length := by rw [List.length_reverse]
    _ ≤ l.length := (List.dropWhile_sublist _).length_le

theorem normNewlines_cons_of_ne (c : Char) (rest : List Char) (h : ¬(c = '\r')) :
    normNewlines (c :: rest) = c :: normNewlines rest := by
  rw [normNewlines.eq_def]
  split
  · simp_all
  · simp_all
  · simp_all
  · simp_all

/-- Newline normalisation does nothing to carriage-return-free text. -/
theorem normNewlines_of_no_cr (l : List Char) (h : '\r' ∉ l) :
    normNewlines l = l := by
  induction l with
  | nil => rfl
  | cons c rest ih =>
    rw [List.mem_cons, not_or] at h
    rw [normNewlines_cons_of_ne c rest (fun hh => h.1 hh.symm), ih h.2]

/-! ## Sanitizer properties -/

/-- Every character surviving sanitisation is a kept character. -/
theorem sanitize_mem_keep (s : List Char) (n : Nat) :
    ∀ c ∈ sanitize_text_input s n, keepChar c = true := by
  intro c hc
  simp only [sanitize_text_input] at hc
  have h1 := mem_of_mem_pyStrip _ _ hc
  have h2 : c ∈ (normNewlines s).filter keepChar := by
    by_cases hlen : n < ((normNewlines s).filter keepChar).length
    · rw [if_pos hlen] at h1
      exact List.take_subset _ _ h1
    · rwa [if_neg hlen] at h1
  exact (List.mem_filter.mp h2).2

/-- Sanitised text never exceeds the maximum length. -/
theorem sanitize_length_le (s : List Char) (n : Nat) :
    (sanitize_text_input s n).length ≤ n := by
  simp only [sanitize_text_input]
  refine le_trans (pyStrip_length_le _) ?_
  by_cases hlen : n < ((normNewlines s).filter keepChar).length
  · rw [if_pos hlen]
    simp [List.length_take]
  · rw [if_neg hlen]
    omega

/-- Claim C8: `sanitize_text_input` is idempotent — for every input string
and maximum length, sanitising an already-sanitised string changes
nothing. -/
theorem sanitize_text_input_idem (s : List Char) (n : Nat) :
    sanitize_text_input (sanitize_text_input s n) n = sanitize_text_input s n := by
  have hkeep : ∀ c ∈ sanitize_text_input s n, keepChar c = true :=
    sanitize_mem_keep s n
  have hnocr : '\r' ∉ sanitize_text_input s n := by
    intro hmem
    have := hkeep '\r' hmem
    simp [keepChar] at this
  have h1 : normNewlines (sanitize_text_input s n) = sanitize_text_input s n :=
    normNewlines_of_no_cr _ hnocr
  have h2 : (sanitize_text_input s n).filter keepChar = sanitize_text_input s n :=
    List.filter_eq_self.mpr hkeep
  have h3 : ¬(n < (sanitize_text_input s n).length) :=
    not_lt.mpr (sanitize_length_le s n)
  have h4 : pyStrip (sanitize_text_input s n) = sanitize_text_input s n := by
    simp only [sanitize_text_input]
    exact pyStrip_pyStrip _
  show pyStrip
      (if n < ((normNewlines (sanitize_text_input s n)).filter keepChar).length then
        ((normNewlines (sanitize_text_input s n)).filter keepChar).take n
      else (normNewlines (sanitize_text_input s n)).filter keepChar) =
    sanitize_text_input s n
  rw [h1, h2, if_neg h3, h4]

/-! ## Claim theorems -/

/-- Claim C7: if the OCR extraction step raises any exception, the
pipeline returns exactly what the image-free run returns — the failure is
swallowed, the scenario is not augmented, and processing continues
text-only. -/
theorem run_careflow_pipeline_ocr_raise (scenario : List Char)
    (generate : List Message → List Char) (e : Unit) :
    run_careflow_pipeline scenario generate (some (.error e)) =
      run_careflow_pipeline scenario generate none := rfl

/-- Claim C1 (refuting the always-a-dict half): on the valid non-object
JSON input `"[1, 2]"`, `safe_json_parse` returns the parsed list — not a
dict — for every fallback, contradicting its own `Dict[str, Any]`
annotation. -/
theorem safe_json_parse_nondict_on_array (fb : List (List Char × Json)) :
    safe_json_parse "[1, 2]".data fb =
        Json.arr [Json.num "1".data, Json.num "2".data] ∧
      (safe_json_parse "[1, 2]".data fb).isObj = false :=
  ⟨rfl, rfl⟩

/-- Claim C2 (refuting totality): when generation returns the valid
non-object JSON `"[1, 2]"`, the pipeline's `parsed.get` call raises
`AttributeError` instead of returning a four-key record. -/
theorem run_careflow_pipeline_attributeError (scenario : List Char) :
    run_careflow_pipeline scenario (fun _ => "[1, 2]".data) none =
      .error .attributeError := rfl

/-- Claim C6: when the generated text triggers the parse-failure fallback,
the returned `summary` is the raw generated text verbatim, the four
`soap_note` fields are empty strings, and the two list fields are empty. -/
theorem run_careflow_pipeline_fallback (scenario raw : List Char)
    (h : jsonLoads (cleanContent raw) = none) :
    run_careflow_pipeline scenario (fun _ => raw) none =
      .ok (.obj
        [("summary".data, .str raw),
         ("soap_note".data, .obj
           [("subjective".data, .str []), ("objective".data, .str []),
            ("assessment".data, .str []), ("plan".data, .str [])]),
         ("workflow_suggestions".data, .arr []),
         ("missing_information".data, .arr [])]) := by
  simp only [run_careflow_pipeline, safe_json_parse, h]
  simp [pyDictUpdate, dictAssign, assocLookup]

/-- Witness for claim C6 at generation output `"Sorry, I cannot help."`
(end-to-end scenario B of the spec). -/
theorem run_careflow_pipeline_fallback_witness :
    jsonLoads (cleanContent "Sorry, I cannot help.".data) = none ∧
    run_careflow_pipeline "Patient reports headache.".data
        (fun _ => "Sorry, I cannot help.".data) none =
      .ok (.obj
        [("summary".data, .str "Sorry, I cannot help.".data),
         ("soap_note".data, .obj
           [("subjective".data, .str []), ("objective".data, .str []),
            ("assessment".data, .str []), ("plan".data, .str [])]),
         ("workflow_suggestions".data, .arr []),
         ("missing_information".data, .arr [])]) :=
  ⟨rfl, run_careflow_pipeline_fallback _ _ rfl⟩

/-- Claim C9: whenever the generated text parses to a JSON object, the
pipeline's result object carries exactly the four canonical keys, in
order — any extra top-level keys of the parsed output are discarded. -/
theorem run_careflow_pipeline_exact_keys (scenario raw : List Char)
    (kvs : List (List Char × Json))
    (h : jsonLoads (cleanContent raw) = some (.obj kvs)) :
    ∃ o, run_careflow_pipeline scenario (fun _ => raw) none = .ok (.obj o) ∧
      o.map Prod.fst = pipelineResultKeys := by
  refine ⟨[("summary".data, (assocLookup kvs "summary".data).getD (.str raw)),
           ("soap_note".data, (assocLookup kvs "soap_note".data).getD (.obj
             [("subjective".data, .str []), ("objective".data, .str []),
              ("assessment".data, .str []), ("plan".data, .str [])])),
           ("workflow_suggestions".data,
             (assocLookup kvs "workflow_suggestions".data).getD (.arr [])),
           ("missing_information".data,
             (assocLookup kvs "missing_information".data).getD (.arr []))], ?_, ?_⟩
  · simp only [run_careflow_pipeline, safe_json_parse, h]
  · simp [pipelineResultKeys]

/-- Witness for claim C9 at an output carrying an extra top-level key. -/
theorem run_careflow_pipeline_exact_keys_witness :
    jsonLoads (cleanContent "\x7b\"summary\": \"s\", \"extra\": 1\x7d".data) =
      some (.obj [("summary".data, .str "s".data), ("extra".data, .num "1".data)]) ∧
    ∃ o, run_careflow_pipeline "scen".data
          (fun _ => "\x7b\"summary\": \"s\", \"extra\": 1\x7d".data) none =
        .ok (.obj o) ∧ o.map Prod.fst = pipelineResultKeys :=
  ⟨by with_unfolding_all rfl,
   run_careflow_pipeline_exact_keys _ _ _ (by with_unfolding_all rfl)⟩

/-- Claim C3: for raw text that is strictly valid JSON conforming to the
output schema, `safe_json_parse` returns exactly the parsed object,
unchanged, whatever the fallback. -/
theorem safe_json_parse_valid_json (t : List Char)
    (fb : List (List Char × Json)) (v : Json)
    (hschema : conformsSchema v = true)
    (h : jsonLoads (pyStrip t) = some v) :
    safe_json_parse t fb = v :=
  safe_json_parse_of_loads t fb v h

/-- Witness for claim C3 at a fully-populated schema-conforming document
(end-to-end scenario A of the spec). -/
theorem safe_json_parse_valid_json_witness :
    conformsSchema (Json.obj
      [("summary".data, .str "s".data),
       ("soap_note".data, .obj
         [("subjective".data, .str "a".data), ("objective".data, .str "b".data),
          ("assessment".data, .str "c".data), ("plan".data, .str "d".data)]),
       ("workflow_suggestions".data, .arr [.str "w".data]),
       ("missing_information".data, .arr [])]) = true ∧
    jsonLoads (pyStrip ("\x7b\"summary\": \"s\", \"soap_note\": \x7b\"subjective\": \"a\", \"objective\": \"b\", \"assessment\": \"c\", \"plan\": \"d\"\x7d, \"workflow_suggestions\": [\"w\"], \"missing_information\": []\x7d".data)) =
      some (Json.obj
        [("summary".data, .str "s".data),
         ("soap_note".data, .obj
           [("subjective".data, .str "a".data), ("objective".data, .str "b".data),
            ("assessment".data, .str "c".data), ("plan".data, .str "d".data)]),
         ("workflow_suggestions".data, .arr [.str "w".data]),
         ("missing_information".data, .arr [])]) ∧
    safe_json_parse ("\x7b\"summary\": \"s\", \"soap_note\": \x7b\"subjective\": \"a\", \"objective\": \"b\", \"assessment\": \"c\", \"plan\": \"d\"\x7d, \"workflow_suggestions\": [\"w\"], \"missing_information\": []\x7d".data) [] =
      Json.obj
        [("summary".data, .str "s".data),
         ("soap_note".data, .obj
           [("subjective".data, .str "a".data), ("objective".data, .str "b".data),
            ("assessment".data, .str "c".data), ("plan".data, .str "d".data)]),
         ("workflow_suggestions".data, .arr [.str "w".data]),
         ("missing_information".data, .arr [])] :=
  ⟨by with_unfolding_all rfl, by with_unfolding_all rfl,
   safe_json_parse_valid_json _ _ _ (by with_unfolding_all rfl)
     (by with_unfolding_all rfl)⟩

/-- Claim C5 (refuting the universal fallback quantifier): with the
non-JSON text `"not json"` and the fallback `{"raw": "x"}`, the result's
`raw` key holds the fallback's value `"x"`, not the stripped input — the
`**fallback` splat overrides the `"raw"` entry. -/
theorem safe_json_parse_raw_override_cex :
    ¬ (∀ kvs, safe_json_parse "not json".data [("raw".data, Json.str "x".data)] =
          Json.obj kvs →
        assocLookup kvs "raw".data =
          some (Json.str (pyStrip "not json".data))) := by
  intro hcl
  have h1 : safe_json_parse "not json".data [("raw".data, Json.str "x".data)] =
      Json.obj [("raw".data, Json.str "x".data)] := by with_unfolding_all rfl
  have h2 := hcl _ h1
  have h3 : assocLookup [("raw".data, Json.str "x".data)] "raw".data =
      some (Json.str "x".data) := rfl
  rw [h3] at h2
  have h4 : pyStrip "not json".data = "not json".data := by with_unfolding_all rfl
  rw [h4] at h2
  simp at h2

/-- Claim C5 as amended: for non-JSON text and a fallback that does not
itself bind `"raw"` (and has duplicate-free keys, as a Python dict does),
the result is a record whose `raw` key holds the cleaned text — equal to
the stripped input whenever no markdown fence matched — and that carries
every fallback key with the fallback's value. -/
theorem safe_json_parse_fallback_amended (t : List Char)
    (fb : List (List Char × Json))
    (hparse : jsonLoads (cleanContent t) = none)
    (hraw : assocLookup fb "raw".data = none)
    (hnodup : (fb.map Prod.fst).Nodup) :
    ∃ kvs, safe_json_parse t fb = Json.obj kvs ∧
      assocLookup kvs "raw".data = some (Json.str (cleanContent t)) ∧
      (tryFence (pyStrip t) = none → cleanContent t = pyStrip t) ∧
      ∀ k, k ≠ "raw".data → assocLookup kvs k = assocLookup fb k := by
  refine ⟨pyDictUpdate [("raw".data, .str (cleanContent t))] fb, ?_, ?_, ?_, ?_⟩
  · unfold safe_json_parse
    rw [hparse]
  · rw [pyDictUpdate_lookup_of_notin fb _ "raw".data
      (forall_ne_of_assocLookup_none fb _ hraw)]
    simp [assocLookup]
  · intro hf
    unfold cleanContent
    rw [hf]
  · intro k hk
    rw [pyDictUpdate_lookup fb _ k hnodup]
    cases hc : assocLookup fb k with
    | some v => simp
    | none =>
      have hne : ¬("raw".data = k) := fun hh => hk hh.symm
      simp [assocLookup, hne]

/-- Witness for the amended claim C5 at `"  garbage  "` with the
pipeline-shaped fallback key `summary`. -/
theorem safe_json_parse_fallback_amended_witness :
    jsonLoads (cleanContent "  garbage  ".data) = none ∧
    assocLookup [("summary".data, Json.str "s".data)] "raw".data = none ∧
    ([("summary".data, Json.str "s".data)].map Prod.fst).Nodup ∧
    ∃ kvs, safe_json_parse "  garbage  ".data
          [("summary".data, Json.str "s".data)] = Json.obj kvs ∧
      assocLookup kvs "raw".data =
        some (Json.str (cleanContent "  garbage  ".data)) ∧
      (tryFence (pyStrip "  garbage  ".data) = none →
        cleanContent "  garbage  ".data = pyStrip "  garbage  ".data) ∧
      ∀ k, k ≠ "raw".data → assocLookup kvs k =
        assocLookup [("summary".data, Json.str "s".data)] k :=
  ⟨by with_unfolding_all rfl, rfl, by simp,
   safe_json_parse_fallback_amended _ _ (by with_unfolding_all rfl) rfl (by simp)⟩

/-! ## Fence-wrapping facts for the reconciler -/

theorem tryFence_tail (j : List Char) :
    endsTripleTick ('\n' :: (j ++ ['\n', '`', '`', '`'])) = true ∧
    ('\n' :: (j ++ ['\n', '`', '`', '`'])).take
        (('\n' :: (j ++ ['\n', '`', '`', '`'])).length - 3) = '\n' :: (j ++ ['\n']) ∧
    pyStrip ('\n' :: (j ++ ['\n'])) = pyStrip j := by
  refine ⟨?_, ?_, ?_⟩
  · simp [endsTripleTick, List.reverse_cons, List.reverse_append]
  · have hsplit : '\n' :: (j ++ ['\n', '`', '`', '`']) =
        ('\n' :: (j ++ ['\n'])) ++ ['`', '`', '`'] := by simp
    rw [hsplit]
    have hlen : (('\n' :: (j ++ ['\n'])) ++ ['`', '`', '`']).length - 3 =
        ('\n' :: (j ++ ['\n'])).length := by
      simp [List.length_append]
    rw [hlen, List.take_left]
  · rw [pyStrip_cons_pos '\n' _ (by decide), pyStrip_append_pos _ '\n' (by decide)]

theorem startsWithJsonCI_newline (x : List Char) :
    startsWithJsonCI ('\n' :: x) = false := by
  simp [startsWithJsonCI]

theorem tryFence_cons3 (rest : List Char) :
    tryFence ('`' :: '`' :: '`' :: rest) =
      (if endsTripleTick (if startsWithJsonCI rest then rest.drop 4 else rest) then
        some (pyStrip ((if startsWithJsonCI rest then rest.drop 4 else rest).take
          ((if startsWithJsonCI rest then rest.drop 4 else rest).length - 3)))
      else none) := rfl

/-- The fence pattern matches a fenced block whose tag is empty or a
case-variant of `json`, and yields the stripped body. -/
theorem tryFence_fenced (tag j : List Char)
    (htag : tag = [] ∨ tag.map Char.toLower = "json".data) :
    tryFence (fencedBlock tag j) = some (pyStrip j) := by
  have hshape : fencedBlock tag j =
      '`' :: '`' :: '`' :: (tag ++ '\n' :: (j ++ ['\n', '`', '`', '`'])) := by
    simp [fencedBlock]
  rw [hshape, tryFence_cons3]
  obtain ⟨hend, htake, hstrip⟩ := tryFence_tail j
  rcases htag with htag | htag
  · subst htag
    simp only [List.nil_append]
    rw [startsWithJsonCI_newline]
    simp only [if_false, Bool.false_eq_true, ite_false]
    rw [hend]
    simp only [if_true]
    rw [htake, hstrip]
  · have hlen : tag.length = 4 := by
      have := congrArg List.length htag
      simpa using this
    have hstart : startsWithJsonCI (tag ++ '\n' :: (j ++ ['\n', '`', '`', '`'])) = true := by
      unfold startsWithJsonCI
      rw [← hlen, List.take_left, htag]
      simp
    have hdrop : (tag ++ '\n' :: (j ++ ['\n', '`', '`', '`'])).drop 4 =
        '\n' :: (j ++ ['\n', '`', '`', '`']) := by
      rw [← hlen, List.drop_left]
    rw [hstart]
    simp only [if_true]
    rw [hdrop, hend]
    simp only [if_true]
    rw [htake, hstrip]

/-- A fenced block is already stripped (backticks at both ends). -/
theorem pyStrip_fenced (tag j : List Char) :
    pyStrip (fencedBlock tag j) = fencedBlock tag j := by
  have hshape : fencedBlock tag j =
      '`' :: ('`' :: '`' :: (tag ++ '\n' :: (j ++ ['\n', '`', '`']))) ++ ['`'] := by
    simp [fencedBlock]
  rw [hshape]
  rw [show ('`' :: ('`' :: '`' :: (tag ++ '\n' :: (j ++ ['\n', '`', '`']))) ++ ['`']) =
      '`' :: (('`' :: '`' :: (tag ++ '\n' :: (j ++ ['\n', '`', '`']))) ++ ['`']) from rfl]
  rw [pyStrip_cons_neg _ _ (by decide)]
  rw [show ('`' :: (('`' :: '`' :: (tag ++ '\n' :: (j ++ ['\n', '`', '`']))) ++ ['`'])) =
      ('`' :: '`' :: '`' :: (tag ++ '\n' :: (j ++ ['\n', '`', '`']))) ++ ['`'] from rfl]
  rw [stripRight_append_neg _ _ (by decide)]

theorem cleanContent_fenced (tag j : List Char)
    (htag : tag = [] ∨ tag.map Char.toLower = "json".data) :
    cleanContent (fencedBlock tag j) = pyStrip j := by
  unfold cleanContent
  rw [pyStrip_fenced, tryFence_fenced tag j htag]

/-- Claim C4 (refuting the arbitrary-language-tag reading): fencing valid
JSON with a `python` tag changes the result — the pattern only strips a
`json` (or absent) tag, so the tag word ends up inside the text handed to
`json.loads`, which then fails. -/
theorem fenced_python_tag_cex :
    ¬ (safe_json_parse (fencedBlock "python".data "\x7b\"a\": 1\x7d".data) [] =
        safe_json_parse "\x7b\"a\": 1\x7d".data []) := by
  intro h
  have h1 : safe_json_parse (fencedBlock "python".data "\x7b\"a\": 1\x7d".data) [] =
      Json.obj [("raw".data, Json.str "python\n\x7b\"a\": 1\x7d".data)] := by
    with_unfolding_all rfl
  have h2 : safe_json_parse "\x7b\"a\": 1\x7d".data [] =
      Json.obj [("a".data, Json.num "1".data)] := by with_unfolding_all rfl
  rw [h1, h2] at h
  simp at h

/-- Claim C4 as amended: wrapping JSON text in a fenced block whose
language tag is absent or a case-variant of `json` does not change the
reconciler's result. -/
theorem safe_json_parse_fenced (tag j : List Char)
    (fb : List (List Char × Json)) (v : Json)
    (htag : tag = [] ∨ tag.map Char.toLower = "json".data)
    (h : jsonLoads (pyStrip j) = some v) :
    safe_json_parse (fencedBlock tag j) fb = safe_json_parse j fb := by
  rw [safe_json_parse_of_loads j fb v h]
  unfold safe_json_parse
  rw [cleanContent_fenced tag j htag, h]

/-- Witness for the amended claim C4 with the `json` tag around
`\x7b"a": 1\x7d`. -/
theorem safe_json_parse_fenced_witness :
    ("json".data = ([] : List Char) ∨ "json".data.map Char.toLower = "json".data) ∧
    jsonLoads (pyStrip "\x7b\"a\": 1\x7d".data) =
      some (Json.obj [("a".data, Json.num "1".data)]) ∧
    safe_json_parse (fencedBlock "json".data "\x7b\"a\": 1\x7d".data) [] =
      safe_json_parse "\x7b\"a\": 1\x7d".data [] :=
  ⟨Or.inr (by decide), by with_unfolding_all rfl,
   safe_json_parse_fenced _ _ _ _ (Or.inr (by decide))
     (by with_unfolding_all rfl)⟩

/-- Claim C10: the pipeline builds exactly one system and one user
message, and the user message's content embeds the (possibly
OCR-augmented) scenario verbatim as a contiguous substring between the
fixed prompt texts — no sanitisation, truncation, or character filtering
happens on this path. -/
theorem careflow_user_prompt_verbatim (scenario : List Char)
    (uploaded_image : Option (Except Unit (List Char))) :
    ∃ pre post,
      careflowMessages (augmentScenario scenario uploaded_image) =
        [⟨"system".data, get_system_prompt_base.data⟩,
         ⟨"user".data,
           pre ++ augmentScenario scenario uploaded_image ++ post⟩] := by
  refine ⟨careflowUserIntro.data ++ "\x27\x27\x27".data,
    "\x27\x27\x27\n\n".data ++ get_json_response_instructions.data ++ "\n".data, ?_⟩
  simp [careflowMessages, build_careflow_prompts, List.append_assoc]
